import Mathlib

/-!
Verification of the pluggable zenoh transport layer
(`src/plugin_proposal/lib/src/default_implementation.cpp`) against its
natural-language specification.

The C++ file is a thin dispatch layer over the zenoh backend: a Publisher
(synchronous put), a Subscriber and an RpcServer (backend callback pushes a
decoded event into a Fifo, a ThreadPool of workers pulls and runs the user
callback), and an RpcClient (one query, first reply wins, bounded reply
channel).  Each component is embedded below as an executable Lean function
whose inputs stand for what the opaque backend supplies (the backend result
of a declaration or a put, the sequence of replies a reply channel yields,
the sequence of events a Fifo pull produces).  Fallible C++ paths (throw)
become `Except` / `Option` error results, and backend side effects become
explicit traces of actions.
-/

/-- A transport message: `Message { payload, attributes }`, two opaque byte
blobs (`std::string` in the C++ API).  Bytes are modelled as `String`. -/
structure Message where
  payload : String
  attributes : String
  deriving DecidableEq, Repr

/-- Errors thrown by the layer, one constructor per distinct
`std::runtime_error` family in the source. -/
inductive TransportError where
  | constructionFailure
  | sendFailure
  | timeout
  | missingAttachment
  deriving DecidableEq, Repr

/-! ## RpcClient  (`RpcClientImpl::operator()`, lines 154-176)

The constructor issues one `z_get` with a bounded fifo reply channel of
capacity 16.  `operator()` then loops on `z_call(channel.recv, &reply)`:
if `z_check(reply)` fails (the channel has closed) the loop exits and the
default-constructed `results` tuple is returned; if the first reply is ok
its keyexpr, payload and attachment `"attributes"` entry are copied into
`results` and the loop breaks; if the first reply is not ok the call throws
`"RPC client timed out."`.  The channel is modelled as the list of replies
it yields before closing. -/

/-- One reply yielded by the zenoh reply channel: either an ok reply
carrying a sample (keyexpr, payload, attachment attributes) or a non-ok
(error) reply. -/
inductive ZReply where
  | ok (keyexpr : String) (payload : String) (attributes : String)
  | err
  deriving DecidableEq, Repr

/-- The `for (z_call(...); z_check(reply); z_call(...))` loop of
`RpcClientImpl::operator()`, carrying the `results` tuple it mutates.
Empty channel: `z_check` fails, loop exits, current `results` returned.
Ok head reply: `results` is overwritten with the sample and the loop
breaks.  Non-ok head reply: `throw runtime_error("RPC client timed out.")`.
The loop body always breaks or throws, so at most one reply is consumed. -/
def rpcClientRecvLoop (channel : List ZReply) (results : String × Message) :
    Except TransportError (String × Message) :=
  match channel with
  | [] => .ok results
  | .ok k p a :: _ => .ok (k, ⟨p, a⟩)
  | .err :: _ => .error .timeout

/-- Embedding of `RpcClientImpl::operator()`: run the recv loop starting from the
default-constructed `tuple<string, Message> results` (empty topic, empty
payload, empty attributes). -/
def rpcClientCall (channel : List ZReply) : Except TransportError (String × Message) :=
  rpcClientRecvLoop channel ("", ⟨"", ""⟩)

/-! ## Publisher  (`PublisherImpl`, lines 27-56) -/

/-- One backend call made by `PublisherImpl::operator()`: the single
`z_publisher_put` with the message payload, the attachment map holding the
message attributes under key `"attributes"`, and the backend verdict
(`z_publisher_put` returned zero). -/
inductive PubAction where
  | publisherPut (payload : String) (attributes : String) (accepted : Bool)
  deriving DecidableEq, Repr

/-- Embedding of `PublisherImpl::operator()`: build the attachment map from
`message.attributes`, call `z_publisher_put` once with `message.payload`;
if the put returns nonzero, drop the map and throw
`runtime_error("Cannot publish")`, else drop the map and return.  The
backend verdict is the input `accepted`. -/
def publisherSend (accepted : Bool) (m : Message) :
    List PubAction × Option TransportError :=
  ([.publisherPut m.payload m.attributes accepted],
   if accepted then none else some .sendFailure)

/-! ## Construction  (`SessionImpl`, `PublisherImpl`, `RpcServerImpl`
constructors)

Each constructor makes exactly one backend declaration call and throws if
the backend rejects it: `SessionImpl` via `zenohc::expect(zenohc::open(...))`,
`PublisherImpl` via `z_declare_publisher` + `z_check` (lines 32-37,
`"Cannot declare publisher"`), `RpcServerImpl` via `z_declare_queryable` +
`z_check` (lines 243-252, `"Unable to create queryable."`).  The backend's
answer is the input: `some h` for a valid handle `h`, `none` for a
rejection.  A thrown constructor yields `Except.error`, which carries no
object: no partial object exists. -/

/-- One backend declaration call made during construction. -/
inductive ConstrAction where
  | openSessionCall
  | declarePublisherCall
  | declareQueryableCall
  deriving DecidableEq, Repr

/-- Embedding of `SessionImpl`: the startup descriptor and the live backend connection. -/
structure SessionObj where
  start_doc : String
  conn : Nat
  deriving DecidableEq, Repr

/-- Embedding of `PublisherImpl` after a successful constructor: the topic and the
declared `z_owned_publisher_t` handle. -/
structure PublisherObj where
  sending_topic : String
  handle : Nat
  deriving DecidableEq, Repr

/-- Embedding of `RpcServerImpl` after a successful constructor: the keyexpr and the
declared `z_owned_queryable_t` handle. -/
structure RpcServerObj where
  keyexpr : String
  qable : Nat
  deriving DecidableEq, Repr

/-- Embedding of `SessionImpl::SessionImpl`: one `zenohc::open`; `zenohc::expect` throws
when the backend cannot initialize. -/
def sessionOpen (start_doc : String) (conn : Option Nat) :
    List ConstrAction × Except TransportError SessionObj :=
  ([.openSessionCall],
   match conn with
   | none => .error .constructionFailure
   | some c => .ok ⟨start_doc, c⟩)

/-- Embedding of `PublisherImpl::PublisherImpl`: one `z_declare_publisher`; throw
`"Cannot declare publisher"` when `z_check(handle)` fails. -/
def mkPublisher (sending_topic : String) (declared : Option Nat) :
    List ConstrAction × Except TransportError PublisherObj :=
  ([.declarePublisherCall],
   match declared with
   | none => .error .constructionFailure
   | some h => .ok ⟨sending_topic, h⟩)

/-- Embedding of `RpcServerImpl::RpcServerImpl`: one `z_declare_queryable`; throw
`"Unable to create queryable."` when `z_check(qable)` fails (the worker
pool is only started after the check succeeds). -/
def mkRpcServer (keyexpr : String) (declared : Option Nat) :
    List ConstrAction × Except TransportError RpcServerObj :=
  ([.declareQueryableCall],
   match declared with
   | none => .error .constructionFailure
   | some h => .ok ⟨keyexpr, h⟩)

/-! ## Subscriber  (`SubscriberImpl`, lines 58-109)

The backend delivery thread runs `handler`, which decodes a sample into a
`SubInfo` and pushes it; worker threads run `worker`:
`while (true) { auto ptr = fifo.pull(); if (ptr == nullptr) return;
callback(ptr->sending_topic, listening_topic, ptr->message); }`.
A worker thread is modelled by the sequence of its `pull()` results:
`some info` for a delivered event, `none` for the end-of-stream indicator
(the null pointer after `fifo.exit()`).  The user callback may either
return normally (`Except.ok ()`) or raise (`Except.error e`); the loop
contains no handler, so a raise propagates out of `worker`. -/

/-- Embedding of `SubInfo`: one decoded sample — source keyexpr and message (payload,
attachment attributes). -/
structure SubInfo where
  sending_topic : String
  message : Message
  deriving DecidableEq, Repr

/-- Embedding of `SubscriberImpl::worker` on one thread: the list of user-callback
invocations it performs, each `(sourceTopic, listeningTopic, message)`,
together with the exception (if any) that escapes the loop.  Ends
normally on the end-of-stream indicator; a callback raise ends the loop
with that exception after recording the invocation that raised. -/
def subWorker (listening_topic : String)
    (callback : String → String → Message → Except String Unit)
    (pulls : List (Option SubInfo)) :
    List (String × String × Message) × Option String :=
  match pulls with
  | [] => ([], none)
  | none :: _ => ([], none)
  | some i :: rest =>
    match callback i.sending_topic listening_topic i.message with
    | .error e => ([(i.sending_topic, listening_topic, i.message)], some e)
    | .ok _ =>
      let r := subWorker listening_topic callback rest
      ((i.sending_topic, listening_topic, i.message) :: r.1, r.2)

/-! ## RpcServer  (`RpcInfo`, `RpcServerImpl`, lines 179-259)

The backend query thread runs `handler(query)`, which is
`fifo.push(make_shared<RpcInfo>(query))`: the `RpcInfo` is constructed
*before* `push` is entered, and its constructor throws
`"attachment is missing"` when `z_check(z_query_attachment(query))` fails,
so a bad query is rejected before it is enqueued.  On success the
constructor also clones the query handle (`z_query_clone`), and `~RpcInfo`
releases it with `z_query_drop` — exactly once, when the event's sole
`shared_ptr` dies at the end of its worker-loop iteration.

Worker threads run `worker`: pull; on the null pointer, return; otherwise
call `callback(keyexpr, message)`; if it returns a `Message`, call
`z_query_reply` once with that payload and attributes, addressed at the
original query (the loaned owned handle and its keyexpr) — the return code
of `z_query_reply` is discarded; otherwise print `"no results to send"`.
The backend verdict on each reply attempt is supplied as a function of the
event; the worker result also carries the processing error it surfaces
(there is none on any path). -/

/-- An incoming zenoh query as the handler sees it: keyexpr, value payload,
and the optional attachment (its `"attributes"` entry); `none` models
`z_check(attachment)` failing. -/
structure RawQuery where
  keyexpr : String
  payload : String
  attachment : Option String
  deriving DecidableEq, Repr

/-- Embedding of `RpcInfo`: one decoded, enqueued query event (the cloned owned query
handle is implicit: it exists exactly when the event does). -/
structure RpcInfo where
  keyexpr : String
  message : Message
  deriving DecidableEq, Repr

/-- Embedding of `RpcInfo::RpcInfo`: decode keyexpr and value payload, then check the
attachment — throw `"attachment is missing"` if absent (before the query is
cloned and before the push) — then read its `"attributes"` entry and clone
the query handle. -/
def RpcInfo.ofQuery (q : RawQuery) : Except TransportError RpcInfo :=
  match q.attachment with
  | none => .error .missingAttachment
  | some attrs => .ok ⟨q.keyexpr, ⟨q.payload, attrs⟩⟩

/-- Observable state of one `RpcServerImpl`: the Fifo contents, whether
`fifo.exit()` has been called, and whether the queryable is still declared
with the backend. -/
structure RpcServerState where
  queue : List RpcInfo
  queueShutdown : Bool
  registered : Bool
  deriving DecidableEq, Repr

/-- Embedding of `RpcServerImpl::handler`: construct the `RpcInfo` (which may throw) and
push it.  A throw propagates out with the server state untouched — the push
is never reached, nothing is shut down, nothing is undeclared. -/
def rpcServerHandler (q : RawQuery) (st : RpcServerState) :
    RpcServerState × Option TransportError :=
  match RpcInfo.ofQuery q with
  | .error e => (st, some e)
  | .ok info => ({ st with queue := st.queue ++ [info] }, none)

/-- Modelled from the spec (the `Fifo`/`ThreadPool` utility code in
`Utils.hpp` is not part of this file): `pull()` returns the end-of-stream
indicator — and a worker thread therefore exits — exactly when the queue
has been shut down and drained; `shutdown()`/`exit()` wakes all consumers
so every subsequent `pull()` returns end-of-stream. -/
def RpcServerState.workerSeesEndOfStream (st : RpcServerState) : Bool :=
  st.queue.isEmpty && st.queueShutdown

/-- Embedding of `RpcServerImpl::~RpcServerImpl`: the only place the queue is shut down
(`fifo.exit()`) and the queryable undeclared (`z_undeclare_queryable`). -/
def rpcServerShutdown (st : RpcServerState) : RpcServerState :=
  { st with queueShutdown := true, registered := false }

/-- One step of `RpcServerImpl::worker` as observed by the backend: the
user-callback invocation, then either the reply attempt or the
`"no results to send"` log line, then the release of the cloned owned
query handle (`z_query_drop` in `~RpcInfo`, run when the event's
`shared_ptr` dies at the end of the iteration). -/
inductive ServerAction where
  | callbackInvoked (keyexpr : String) (msg : Message)
  | replyToQuery (keyexpr : String) (payload : String) (attributes : String) (accepted : Bool)
  | logNoResults
  | dropQuery
  deriving DecidableEq, Repr

/-- Whether a `ServerAction` is a `z_query_reply` attempt. -/
def ServerAction.isReply : ServerAction → Bool
  | .replyToQuery _ _ _ _ => true
  | _ => false

/-- Whether a `ServerAction` is a `z_query_drop` release. -/
def ServerAction.isDrop : ServerAction → Bool
  | .dropQuery => true
  | _ => false

/-- The body of `RpcServerImpl::worker` for one dequeued event `i`: invoke
`callback(i.keyexpr, i.message)`; if it returns a message, call
`z_query_reply` once with its payload and attributes addressed at
`i.keyexpr` — the backend verdict `replyAccepted i` is recorded in the
trace but its value is discarded by the worker (the C++ ignores the return
code of `z_query_reply`), so the surfaced processing error (the second
component) is `none` on every path; if the callback returns nothing, log
and send no reply.  The owned query handle is dropped at the end of the
iteration in every case. -/
def rpcProcessOne (callback : String → Message → Option Message)
    (replyAccepted : RpcInfo → Bool) (i : RpcInfo) :
    List ServerAction × Option TransportError :=
  (ServerAction.callbackInvoked i.keyexpr i.message ::
    (match callback i.keyexpr i.message with
     | some m => [ServerAction.replyToQuery i.keyexpr m.payload m.attributes (replyAccepted i),
                  ServerAction.dropQuery]
     | none => [ServerAction.logNoResults, ServerAction.dropQuery]),
   none)

/-- Embedding of `RpcServerImpl::worker` on one thread, over the sequence of its
`pull()` results (`none` is the end-of-stream null pointer): the
concatenated backend-visible trace of the events it processes. -/
def rpcWorkerLoop (callback : String → Message → Option Message)
    (replyAccepted : RpcInfo → Bool) (pulls : List (Option RpcInfo)) :
    List ServerAction :=
  match pulls with
  | [] => []
  | none :: _ => []
  | some i :: rest =>
    (rpcProcessOne callback replyAccepted i).1 ++ rpcWorkerLoop callback replyAccepted rest

/-! ## Theorems -/

/-- C9: if the RpcClient reply channel closes having yielded zero replies,
`RpcClientImpl::operator()` returns the default-constructed tuple — empty
topic, empty payload, empty attributes — and raises no error. -/
theorem rpc_client_empty_channel_returns_empty :
    rpcClientCall [] = Except.ok ("", ⟨"", ""⟩) := rfl

/-- C1 counterexample: on a channel that closes with no reply (the
no-responder case) the call does not fail with the timeout error, as the
claim requires; it returns an empty tuple successfully — a third outcome
the claim says does not exist. -/
theorem rpc_client_no_reply_is_not_timeout :
    rpcClientCall [] ≠ Except.error TransportError.timeout ∧
    rpcClientCall [] = Except.ok ("", ⟨"", ""⟩) := by
  constructor
  · intro h
    exact Except.noConfusion h
  · rfl

/-- C1 amended: `RpcClientImpl::operator()` blocks on the reply channel and
has exactly three outcomes, decided by the first thing the channel yields:
an ok reply — its topic and decoded message are returned and any further
replies are discarded (the result does not depend on `rest`); a non-ok
reply — the call fails with the timeout error; channel closed with no
reply — the call returns an empty topic and empty message with no error. -/
theorem rpc_client_call_outcomes (channel : List ZReply) :
    (channel = [] ∧ rpcClientCall channel = Except.ok ("", ⟨"", ""⟩)) ∨
    (∃ k p a rest, channel = ZReply.ok k p a :: rest ∧
      rpcClientCall channel = Except.ok (k, ⟨p, a⟩)) ∨
    (∃ rest, channel = ZReply.err :: rest ∧
      rpcClientCall channel = Except.error TransportError.timeout) := by
  match channel with
  | [] => exact Or.inl ⟨rfl, rfl⟩
  | .ok k p a :: rest => exact Or.inr (Or.inl ⟨k, p, a, rest, rfl, rfl⟩)
  | .err :: rest => exact Or.inr (Or.inr ⟨rest, rfl, rfl⟩)

/-- C6: `PublisherImpl::operator()` forwards the message's payload and
attributes to the backend in a single synchronous `z_publisher_put`, and
the backend's verdict is surfaced: no error when it accepts, a
`sendFailure` (the `"Cannot publish"` throw) when it rejects — never
silently dropped. -/
theorem publisher_send_forwards_and_surfaces (accepted : Bool) (m : Message) :
    (publisherSend accepted m).1 =
      [PubAction.publisherPut m.payload m.attributes accepted] ∧
    ((accepted = true ∧ (publisherSend accepted m).2 = none) ∨
     (accepted = false ∧
      (publisherSend accepted m).2 = some TransportError.sendFailure)) := by
  refine ⟨rfl, ?_⟩
  cases accepted
  · exact Or.inr ⟨rfl, rfl⟩
  · exact Or.inl ⟨rfl, rfl⟩

/-- C7: each construction operation (session open, publisher declaration,
queryable declaration) performs exactly one backend call — no retry by
this layer — and when the backend rejects it the constructor throws a
construction failure, producing no object at all; when the backend accepts,
the constructed object holds exactly the declared handle. -/
theorem construction_rejected_is_fatal (doc topic keyexpr : String) (r : Option Nat) :
    ((sessionOpen doc r).1 = [ConstrAction.openSessionCall] ∧
     (mkPublisher topic r).1 = [ConstrAction.declarePublisherCall] ∧
     (mkRpcServer keyexpr r).1 = [ConstrAction.declareQueryableCall]) ∧
    ((r = none ∧
      (sessionOpen doc r).2 = Except.error TransportError.constructionFailure ∧
      (mkPublisher topic r).2 = Except.error TransportError.constructionFailure ∧
      (mkRpcServer keyexpr r).2 = Except.error TransportError.constructionFailure) ∨
     (∃ h, r = some h ∧
      (sessionOpen doc r).2 = Except.ok ⟨doc, h⟩ ∧
      (mkPublisher topic r).2 = Except.ok ⟨topic, h⟩ ∧
      (mkRpcServer keyexpr r).2 = Except.ok ⟨keyexpr, h⟩)) := by
  refine ⟨⟨rfl, rfl, rfl⟩, ?_⟩
  cases r with
  | none => exact Or.inl ⟨rfl, rfl, rfl, rfl⟩
  | some h => exact Or.inr ⟨h, rfl, rfl, rfl, rfl⟩

/-- C8: on each iteration, `SubscriberImpl::worker` exits when `pull()`
yields the end-of-stream indicator, and otherwise invokes the user
callback with exactly the event's source topic, the subscribed (listening)
topic, and the event's message: for a callback that always returns
normally, the invocation list is precisely the events pulled before the
first end-of-stream, each decorated that way, and the loop ends without an
escaping exception. -/
theorem sub_worker_invokes_callback_per_event (lt : String)
    (callback : String → String → Message → Except String Unit)
    (pulls : List (Option SubInfo))
    (hcb : ∀ a b m, callback a b m = Except.ok ()) :
    (subWorker lt callback pulls).1 =
      (pulls.takeWhile Option.isSome).filterMap
        (fun o => o.map (fun i => (i.sending_topic, lt, i.message))) ∧
    (subWorker lt callback pulls).2 = none := by
  induction pulls with
  | nil => exact ⟨rfl, rfl⟩
  | cons hd tl ih =>
    cases hd with
    | none => exact ⟨rfl, rfl⟩
    | some i =>
      simp only [subWorker, hcb i.sending_topic lt i.message]
      refine ⟨?_, ih.2⟩
      simp only [List.takeWhile_cons, Option.isSome_some, if_true, List.filterMap_cons,
        ih.1]
      rfl

/-- Witness for `sub_worker_invokes_callback_per_event` at a concrete
worker stream: two events before the end-of-stream indicator, one after
it. -/
theorem sub_worker_invokes_callback_per_event_witness :
    (subWorker "a/b" (fun _ _ _ => Except.ok ())
      [some ⟨"s1", ⟨"x", "m"⟩⟩, some ⟨"s2", ⟨"y", "n"⟩⟩, none, some ⟨"s3", ⟨"z", "o"⟩⟩]).1 =
      (([some ⟨"s1", ⟨"x", "m"⟩⟩, some ⟨"s2", ⟨"y", "n"⟩⟩, none, some ⟨"s3", ⟨"z", "o"⟩⟩] :
          List (Option SubInfo)).takeWhile Option.isSome).filterMap
        (fun o => o.map (fun i => (i.sending_topic, "a/b", i.message))) ∧
    (subWorker "a/b" (fun _ _ _ => Except.ok ())
      [some ⟨"s1", ⟨"x", "m"⟩⟩, some ⟨"s2", ⟨"y", "n"⟩⟩, none, some ⟨"s3", ⟨"z", "o"⟩⟩]).2 = none :=
  sub_worker_invokes_callback_per_event "a/b" _ _ (fun _ _ _ => rfl)

/-- C10: the worker loop of `SubscriberImpl::worker` wraps the user
callback in no error containment, so when the callback raises on an event
the exception escapes the loop (terminating that worker thread) and the
events still queued behind it are not processed by that thread: the
invocation list stops at the raising event no matter what `rest` holds. -/
theorem sub_callback_raise_escapes_worker (lt : String)
    (callback : String → String → Message → Except String Unit)
    (i : SubInfo) (e : String) (rest : List (Option SubInfo))
    (hcb : callback i.sending_topic lt i.message = Except.error e) :
    subWorker lt callback (some i :: rest) =
      ([(i.sending_topic, lt, i.message)], some e) := by
  simp only [subWorker, hcb]

/-- Witness for `sub_callback_raise_escapes_worker`: a raising callback on
the first event leaves the second queued event unprocessed. -/
theorem sub_callback_raise_escapes_worker_witness :
    subWorker "t" (fun _ _ _ => Except.error "boom")
      [some ⟨"s1", ⟨"p", "a"⟩⟩, some ⟨"s2", ⟨"q", "b"⟩⟩] =
      ([("s1", "t", (⟨"p", "a"⟩ : Message))], some "boom") :=
  sub_callback_raise_escapes_worker "t" _ ⟨"s1", ⟨"p", "a"⟩⟩ "boom" _ rfl

/-- C3: a query arriving with no attachment is rejected inside the
`RpcInfo` constructor, before `fifo.push` runs: the missing-attachment
error propagates, the queue is left exactly as it was (so no worker ever
dequeues the event and the user callback is never invoked for it), the
worker-pool exit condition is unchanged, and the queryable stays
registered — only the destructor's explicit shutdown changes those. -/
theorem rpc_missing_attachment_rejected_before_enqueue
    (q : RawQuery) (st : RpcServerState) (h : q.attachment = none) :
    (rpcServerHandler q st).2 = some TransportError.missingAttachment ∧
    (rpcServerHandler q st).1 = st ∧
    (rpcServerHandler q st).1.workerSeesEndOfStream = st.workerSeesEndOfStream ∧
    (rpcServerHandler q st).1.registered = st.registered := by
  simp [rpcServerHandler, RpcInfo.ofQuery, h]

/-- Witness for `rpc_missing_attachment_rejected_before_enqueue`: a
concrete attachment-less query against a live server whose queue already
holds one event. -/
theorem rpc_missing_attachment_rejected_before_enqueue_witness :
    (rpcServerHandler ⟨"svc", "p", none⟩ ⟨[⟨"old", ⟨"q", "b"⟩⟩], false, true⟩).2 =
      some TransportError.missingAttachment ∧
    (rpcServerHandler ⟨"svc", "p", none⟩ ⟨[⟨"old", ⟨"q", "b"⟩⟩], false, true⟩).1 =
      ⟨[⟨"old", ⟨"q", "b"⟩⟩], false, true⟩ ∧
    (rpcServerHandler ⟨"svc", "p", none⟩
        ⟨[⟨"old", ⟨"q", "b"⟩⟩], false, true⟩).1.workerSeesEndOfStream =
      RpcServerState.workerSeesEndOfStream ⟨[⟨"old", ⟨"q", "b"⟩⟩], false, true⟩ ∧
    (rpcServerHandler ⟨"svc", "p", none⟩
        ⟨[⟨"old", ⟨"q", "b"⟩⟩], false, true⟩).1.registered =
      RpcServerState.registered ⟨[⟨"old", ⟨"q", "b"⟩⟩], false, true⟩ :=
  rpc_missing_attachment_rejected_before_enqueue ⟨"svc", "p", none⟩
    ⟨[⟨"old", ⟨"q", "b"⟩⟩], false, true⟩ rfl

/-- C2 counterexample: one dequeued query, a callback that does return a
reply message, and a backend that rejects the reply send (`accepted =
false` is recorded in the trace): the worker still surfaces no processing
error — the return code of `z_query_reply` is discarded, so the send
failure is silently dropped, contrary to the claim. -/
theorem rpc_reply_send_failure_silently_dropped :
    (rpcProcessOne (fun _ m => some m) (fun _ => false) ⟨"svc", ⟨"p", "a"⟩⟩).1 =
      [ServerAction.callbackInvoked "svc" ⟨"p", "a"⟩,
       ServerAction.replyToQuery "svc" "p" "a" false,
       ServerAction.dropQuery] ∧
    (rpcProcessOne (fun _ m => some m) (fun _ => false) ⟨"svc", ⟨"p", "a"⟩⟩).2 = none :=
  ⟨rfl, rfl⟩

/-- C2 amended: the worker ignores the result of the backend reply-send
operation; whatever the callback returns and whatever verdict the backend
gives on the reply, processing one event surfaces no error to the
surrounding worker loop. -/
theorem rpc_worker_surfaces_no_processing_error
    (callback : String → Message → Option Message)
    (replyAccepted : RpcInfo → Bool) (i : RpcInfo) :
    (rpcProcessOne callback replyAccepted i).2 = none := rfl

/-- C5: processing one dequeued event performs the backend reply operation
exactly once, carrying exactly the callback's returned payload and
attributes and addressed at the original query's keyexpr, if and only if
the callback returned a message; when the callback returns `none` the
trace holds no reply attempt at all, and either way no error is
surfaced. -/
theorem rpc_reply_exactly_when_callback_replies
    (callback : String → Message → Option Message)
    (replyAccepted : RpcInfo → Bool) (i : RpcInfo) :
    (rpcProcessOne callback replyAccepted i).1.filter ServerAction.isReply =
      (match callback i.keyexpr i.message with
       | some m =>
         [ServerAction.replyToQuery i.keyexpr m.payload m.attributes (replyAccepted i)]
       | none => []) ∧
    (rpcProcessOne callback replyAccepted i).2 = none := by
  refine ⟨?_, rfl⟩
  cases hc : callback i.keyexpr i.message <;>
    simp [rpcProcessOne, hc, ServerAction.isReply]

/-- Count of query-handle releases in the trace of processing one event:
exactly one, whatever the callback and the backend do. -/
theorem rpcProcessOne_drop_count
    (callback : String → Message → Option Message)
    (replyAccepted : RpcInfo → Bool) (i : RpcInfo) :
    ((rpcProcessOne callback replyAccepted i).1.filter ServerAction.isDrop).length = 1 := by
  cases hc : callback i.keyexpr i.message <;>
    simp [rpcProcessOne, hc, ServerAction.isDrop]

/-- C4: over a whole worker run, the cloned owned query handle is released
(`z_query_drop` via `~RpcInfo`) exactly once per processed event — the
number of drops in the trace equals the number of events pulled before the
end-of-stream indicator, for every callback, every backend reply verdict
and every pull sequence; in particular no event's handle is dropped zero
times or twice, whether or not the callback replied and whether or not the
reply send succeeded. -/
theorem rpc_query_handle_released_once_per_event
    (callback : String → Message → Option Message)
    (replyAccepted : RpcInfo → Bool) (pulls : List (Option RpcInfo)) :
    ((rpcWorkerLoop callback replyAccepted pulls).filter ServerAction.isDrop).length =
      (pulls.takeWhile Option.isSome).length := by
  induction pulls with
  | nil => rfl
  | cons hd tl ih =>
    cases hd with
    | none => rfl
    | some i =>
      have h1 := rpcProcessOne_drop_count callback replyAccepted i
      simp only [rpcWorkerLoop, List.filter_append, List.length_append, h1, ih,
        List.takeWhile_cons, Option.isSome_some, if_true, List.length_cons]
      omega
